import Mathlib

/-!
Shallow embedding of `gcp_auth_fork` (files `src/authentication_manager.rs`,
`src/types.rs`, `src/util.rs`) and proofs about its token cache, discovery,
signer construction, response decoding and secret redaction.

Time is modelled in whole seconds: an instant is an `Int` (seconds relative
to an arbitrary epoch, matching `std::time::SystemTime` arithmetic, which is
exact and does not wrap), and `Duration` values appear as integer second
counts.  Each operation that reads the wall clock in the source
(`SystemTime::now()`) takes the current instant as an explicit argument; a
single call of an operation is modelled at one frozen instant.
-/

namespace GcpAuth

/-- Model of `SecretString` (types.rs:22-47): a wrapper owning one string.
`secret()` exposes the plaintext. -/
structure SecretString where
  secret : String
deriving DecidableEq

/-- Model of `Token` (types.rs:61-95): an access-token `SecretString` plus an
absolute expiry instant.  The `Arc<InnerToken>` sharing layer is ignored:
values in Lean are immutable and freely shared already. -/
structure Token where
  access_token : SecretString
  expires_at : Int
deriving DecidableEq

/-- `Token::secret` (types.rs:113-115). -/
def Token.secret (t : Token) : String :=
  t.access_token.secret

/-- Model of `Token::has_expired` (types.rs:108-110):
`self.inner.expires_at - Duration::from_secs(20) <= SystemTime::now()`,
with the clock passed explicitly. -/
def Token.has_expired (t : Token) (now : Int) : Bool :=
  t.expires_at - 20 ≤ now

/-- Remaining validity as computed on the near-expiry path
(authentication_manager.rs:104-107):
`token.expires_at().duration_since(SystemTime::now()).unwrap_or_default()` —
a `Duration` is non-negative, and `duration_since` falls back to zero when
the expiry is already in the past. -/
def Token.valid_for (t : Token) (now : Int) : Int :=
  max (t.expires_at - now) 0

/-- Model of the crate error enum (`error.rs` is referenced but not among the
provided sources; only the variants the provided sources construct are
modelled): `NoAuthMethod` with its three boxed causes
(authentication_manager.rs:82-86), `ConnectionError`, `ServerUnavailable` and
`ParsingError` (util.rs:22-31), `SignerInit` and `SignerFailed`
(types.rs:155,165), plus an opaque strategy-specific failure used to populate
discovery inputs. -/
inductive Error where
  | NoAuthMethod (gcloud_error default_service_error default_user_error : Error)
  | ConnectionError (msg : String)
  | ServerUnavailable (msg : String)
  | ParsingError
  | SignerInit
  | SignerFailed
  | StrategyFailure (msg : String)
deriving DecidableEq

/-- The list of per-strategy causes carried by an error: `NoAuthMethod` carries
its three boxed causes (authentication_manager.rs:82-86); every other error
variant carries none. -/
def Error.aggregate_causes : Error → List Error
  | .NoAuthMethod g m c => [g, m, c]
  | _ => []

/-- The non-blocking cache peek filtered for validity, as written twice in
`get_token` (authentication_manager.rs:103,130-131):
`token.filter(|token| !token.has_expired())` applied to the result of
`self.0.service_account.get_token(scopes)`. -/
def peek_valid (cache : Option Token) (now : Int) : Option Token :=
  cache.filter (fun t => ! t.has_expired now)

/-- The values `AuthenticationManager::get_token`
(authentication_manager.rs:100-139) draws from its environment during one
call, made explicit: the two cache peeks of the service account, whether the
refresh mutex is held by someone else at the `try_lock_owned` attempt
(line 111), and the result `refresh_token` (line 135-138) produces if called
inline. -/
structure GetTokenEnv where
  /-- result of the initial non-blocking cache peek (line 101) -/
  cached : Option Token
  /-- `try_lock_owned` (line 111) fails: another refresh holds the mutex -/
  lockHeld : Bool
  /-- result of the second cache peek after acquiring the mutex (line 130) -/
  cachedAfterLock : Option Token
  /-- result of `refresh_token` when called on the calling path (line 135) -/
  refreshResult : Except Error Token

/-- Observable outcome of one `get_token` call. -/
structure GetTokenOutcome where
  /-- the value returned to the caller -/
  result : Except Error Token
  /-- the call awaited `refresh_mutex.lock()` (line 127) -/
  blocked : Bool
  /-- a background refresh task was spawned (line 117) -/
  spawned : Bool
  /-- number of `refresh_token` calls performed on the calling path (line 135) -/
  inline_refreshes : Nat

/-- Model of `AuthenticationManager::get_token`
(authentication_manager.rs:100-139), at one frozen instant `now`:

* peek the cache and filter for validity (line 101-103);
* if a valid token exists and `valid_for < 60` (line 108), try the refresh
  mutex without waiting and spawn a background refresh exactly when that
  succeeds (lines 111-121), then return the cached token (line 123);
* if a valid token exists and `valid_for ≥ 60`, return it directly;
* otherwise await the mutex (line 127), re-peek the cache (lines 130-133) and
  return a now-valid token if one appeared, else call `refresh_token` once and
  return its result unchanged (lines 135-138). -/
def get_token (env : GetTokenEnv) (now : Int) : GetTokenOutcome :=
  match peek_valid env.cached now with
  | some token =>
    if token.valid_for now < 60 then
      { result := .ok token, blocked := false, spawned := ! env.lockHeld,
        inline_refreshes := 0 }
    else
      { result := .ok token, blocked := false, spawned := false,
        inline_refreshes := 0 }
  | none =>
    match peek_valid env.cachedAfterLock now with
    | some token =>
      { result := .ok token, blocked := true, spawned := false,
        inline_refreshes := 0 }
    | none =>
      { result := env.refreshResult, blocked := true, spawned := false,
        inline_refreshes := 1 }

/-- The four credential-source strategies tried by discovery
(authentication_manager.rs:51-87). -/
inductive Strategy where
  | custom_service_account
  | config_default_credentials
  | metadata_service_account
  | gcloud_authorized_user
deriving DecidableEq

/-- Model of `AuthenticationManager::new` (authentication_manager.rs:51-87).
The four strategy initializers live in modules that are not among the provided
sources, so their outcomes are inputs.  `from_env` mirrors
`CustomServiceAccount::from_env()?` (line 53): `Ok(None)` when the environment
variable is unset, `Ok(Some _)` on success, and `Err` propagated immediately
by the `?` operator.  The result records which strategy the manager was built
around. -/
def AuthenticationManager.new
    (from_env : Except Error (Option Unit))
    (config_default : Except Error Unit)
    (metadata_service : Except Error Unit)
    (gcloud : Except Error Unit) : Except Error Strategy :=
  match from_env with
  | .error e => .error e
  | .ok (some _) => .ok .custom_service_account
  | .ok none =>
    match config_default with
    | .ok _ => .ok .config_default_credentials
    | .error default_user_error =>
      match metadata_service with
      | .ok _ => .ok .metadata_service_account
      | .error default_service_error =>
        match gcloud with
        | .ok _ => .ok .gcloud_authorized_user
        | .error gcloud_error =>
          .error (.NoAuthMethod gcloud_error default_service_error
            default_user_error)

/-- Model of `impl fmt::Debug for SecretString` (types.rs:31-35): it writes
the fixed placeholder and nothing else. -/
def SecretString.debug_fmt (_s : SecretString) : String :=
  "(redacted)"

/-- Model of `impl fmt::Debug for Token` (types.rs:78-85): a `debug_struct`
rendering in which the access token field is the literal `"****"` and only the
expiry is shown. -/
def Token.debug_fmt (t : Token) : String :=
  "Token \x7b access_token: \"****\", expires_at: " ++ toString t.expires_at
    ++ " \x7d"

/-- DER bytes of one private key as returned by the PEM parser. -/
def KeyDer := List Nat
deriving DecidableEq

/-- Outcome of `rustls_pemfile::pkcs8_private_keys` on the PEM blob
(types.rs:131): an external crate function, so its result is an input — either
a read failure (malformed PEM) or the list of DER keys found, in order. -/
inductive PemKeys where
  | read_failure
  | keys (ks : List KeyDer)

/-- Modelled from the spec: the conversion `impl From<io::Error> for Error`
invoked by the two `.into()` calls in `Signer::new` (types.rs:139-151) lives
in `error.rs`, which is not among the provided sources.  Spec §4.2 states that
construction "fails with a `SignerInit` error when the PEM blob contains zero
private keys, is malformed, or the key cannot be parsed as the expected key
type", and §7 lists no separate I/O error kind, so the conversion of those
`InvalidInput` I/O errors is modelled as producing `Error.SignerInit`. -/
def Error.of_io_invalid_input (_msg : String) : Error :=
  .SignerInit

/-- Model of `Signer` (types.rs:124-127): the parsed key (the random source
has no observable behaviour here). -/
structure Signer where
  key : KeyDer

/-- Model of `Signer::new` (types.rs:130-158).  `RsaKeyPair::from_pkcs8` is an
external crate function; the predicate `from_pkcs8` saying which DER blobs
parse as RSA keys is an input.  On a non-empty key list the code runs
`keys.truncate(1); keys.remove(0)`, i.e. it uses exactly the first key. -/
def Signer.new (from_pkcs8 : KeyDer → Bool) (pem : PemKeys) :
    Except Error Signer :=
  match pem with
  | .keys keys =>
    match keys with
    | k :: _ =>
      if from_pkcs8 k then .ok { key := k }
      else .error .SignerInit
    | [] => .error (Error.of_io_invalid_input "Not enough private keys in PEM")
  | .read_failure =>
    .error (Error.of_io_invalid_input "Error reading key from PEM")

/-- `http::StatusCode::is_success` as used in util.rs:24: status in 2xx. -/
def status_is_success (status : Nat) : Bool :=
  decide (200 ≤ status ∧ status < 300)

/-- Model of `HyperExt::deserialize` (util.rs:13-34) for a response with body
type `B` decoded into `T`.  The external pieces are inputs: `body_result` is
the outcome of `hyper::body::to_bytes` (a transport failure carries the hyper
error's message, line 20-22), `status` is the numeric HTTP status of the
received parts, and `decode` is the `serde_json::from_slice` oracle for the
target structure (line 30-31).  The order matches the source: body first,
then status (lines 24-28), then JSON decoding. -/
def hyper_deserialize {B T : Type} (decode : B → Option T)
    (status : Nat) (body_result : Except String B) : Except Error T :=
  match body_result with
  | .error msg => .error (.ConnectionError msg)
  | .ok body =>
    if ! status_is_success status then
      .error (.ServerUnavailable ("Server responded with error "
        ++ toString status))
    else
      match decode body with
      | some t => .ok t
      | none => .error .ParsingError

/-- A JSON number literal as serde sees it: an integer mantissa, and whether
the literal is integral (`is_int := false` models a literal with a fractional
part, for which `u64` extraction fails). -/
structure JsonNum where
  mantissa : Int
  is_int : Bool
deriving DecidableEq

/-- Serde deserialization of a `u64` from a JSON number (the
`let seconds_from_now: u64 = Deserialize::deserialize(..)?` in
types.rs:180): succeeds exactly on integral literals in `[0, 2^64)`. -/
def json_u64 (j : JsonNum) : Option Nat :=
  if j.is_int = true ∧ 0 ≤ j.mantissa ∧ j.mantissa < 2 ^ 64 then
    some j.mantissa.toNat
  else
    none

/-- Model of `deserialize_time` (types.rs:176-182): deserialize the wire
value as `u64` seconds-from-now, then
`SystemTime::now() + Duration::from_secs(seconds_from_now)`, with the
decode-time clock passed explicitly. -/
def deserialize_time (now : Int) (j : JsonNum) : Option Int :=
  (json_u64 j).map (fun s => now + (s : Int))

/-- The token wire payload `{"access_token": .., "expires_in": ..}`
(types.rs:87-95). -/
structure TokenPayload where
  access_token : String
  expires_in : JsonNum

/-- Serde decoding of `Token` from the wire payload (types.rs:61-95 together
with `deserialize_time`): the relative `expires_in` is converted to the
absolute `expires_at` at decode time, i.e. using the clock value `now` at
which deserialization runs. -/
def token_decode (now : Int) (p : TokenPayload) : Option Token :=
  (deserialize_time now p.expires_in).map
    (fun e => { access_token := { secret := p.access_token }, expires_at := e })

/-- A pkcs8-parse oracle that rejects every DER blob; used only to exercise
failure paths on concrete inputs. -/
def reject_all_keys : KeyDer → Bool :=
  fun _ => false

/-- A JSON-decode oracle that fails on every body; used only to exercise
failure paths on concrete inputs. -/
def decode_none : List Nat → Option Unit :=
  fun _ => none

end GcpAuth

namespace GcpAuth

/-- `peek_valid` returns a token exactly when the cache holds it and it is
unexpired. -/
theorem peek_valid_eq_some (cache : Option Token) (now : Int) (t : Token) :
    peek_valid cache now = some t ↔
      cache = some t ∧ t.has_expired now = false := by
  cases cache with
  | none => simp [peek_valid]
  | some u =>
    simp only [peek_valid, Option.filter]
    by_cases h : u.has_expired now = false
    · simp [h]
      rintro rfl
      exact h
    · simp at h
      simp [h]
      rintro rfl
      simp [h]

/-- A token whose remaining validity exceeds the 20-second margin is not
expired. -/
theorem valid_for_gt_margin_not_expired (t : Token) (now : Int)
    (h : 20 < t.valid_for now) : t.has_expired now = false := by
  simp only [Token.valid_for] at h
  simp only [Token.has_expired, decide_eq_false_iff_not]
  rcases max_cases (t.expires_at - now) 0 with ⟨heq, _⟩ | ⟨heq, _⟩ <;>
    rw [heq] at h <;> omega

end GcpAuth

/-- C4: `has_expired()` is true iff the current time is at or past
`expires_at − 20s`; at one-second granularity it is false at the instant
immediately before `expires_at − 20` and true at `expires_at − 20` itself
(types.rs:108-110). -/
theorem GcpAuth.token_has_expired_iff_margin (t : GcpAuth.Token) (now : Int) :
    (t.has_expired now = true ↔ t.expires_at - 20 ≤ now) ∧
    t.has_expired (t.expires_at - 21) = false ∧
    t.has_expired (t.expires_at - 20) = true := by
  refine ⟨?_, ?_, ?_⟩
  · simp only [Token.has_expired, decide_eq_true_eq]
  · simp only [Token.has_expired, decide_eq_false_iff_not]
    omega
  · simp only [Token.has_expired, decide_eq_true_eq]
    omega


/-- C1 counterexample: on the path that returns the result of a synchronous
`refresh_token` call, `get_token` propagates the refresh result unchecked
(authentication_manager.rs:135-138); if the freshly refreshed token already
falls within the 20-second margin, an expired token is returned.  Concretely,
with an empty cache and a refresh yielding a token that expires at instant 0,
the call at instant 0 returns that token even though `has_expired` holds. -/
theorem GcpAuth.get_token_refresh_path_can_return_expired :
    (GcpAuth.get_token
        { cached := none, lockHeld := false, cachedAfterLock := none,
          refreshResult := .ok ⟨⟨"fresh"⟩, 0⟩ } 0).result
      = .ok (⟨⟨"fresh"⟩, 0⟩ : GcpAuth.Token) ∧
    GcpAuth.Token.has_expired ⟨⟨"fresh"⟩, 0⟩ 0 = true :=
  ⟨rfl, by decide⟩

/-- C1 (amended): every path of `get_token` that returns a token returns an
unexpired one, provided the inline `refresh_token` result — which
authentication_manager.rs:135-138 propagates unchanged, without re-checking
expiry — is itself unexpired whenever it is a token.  On the fast path, the
near-expiry path and the double-check-after-lock path the returned token is
unexpired unconditionally, because those paths filter the cache through
`!has_expired` (lines 103 and 131). -/
theorem GcpAuth.get_token_returns_unexpired (env : GcpAuth.GetTokenEnv)
    (now : Int) (t : GcpAuth.Token)
    (hfresh : ∀ u : GcpAuth.Token, env.refreshResult = .ok u →
      u.has_expired now = false)
    (h : (GcpAuth.get_token env now).result = .ok t) :
    t.has_expired now = false := by
  unfold get_token at h
  split at h
  next tok hc =>
    split at h
    · obtain rfl : tok = t := by simpa using h
      exact ((peek_valid_eq_some _ _ _).mp hc).2
    · obtain rfl : tok = t := by simpa using h
      exact ((peek_valid_eq_some _ _ _).mp hc).2
  next hc =>
    split at h
    next tok hc2 =>
      obtain rfl : tok = t := by simpa using h
      exact ((peek_valid_eq_some _ _ _).mp hc2).2
    next hc2 =>
      exact hfresh t (by simpa using h)

/-- C1 witness: a concrete fast-path call whose returned token the amended
theorem certifies as unexpired. -/
theorem GcpAuth.get_token_returns_unexpired_witness :
    GcpAuth.Token.has_expired ⟨⟨"w"⟩, 100⟩ 0 = false :=
  GcpAuth.get_token_returns_unexpired
    { cached := some ⟨⟨"w"⟩, 100⟩, lockHeld := false, cachedAfterLock := none,
      refreshResult := .error .ParsingError } 0 ⟨⟨"w"⟩, 100⟩
    (fun _ hu => nomatch hu) rfl

/-- C2 counterexample: a cached token with remaining validity 10s lies inside
the claimed "between 0s and 60s" window, but the 20-second margin already
marks it expired, so `get_token` takes the blocking path instead: the call
awaits the refresh mutex (blocks) and returns the inline refresh result, not
the still-cached token. -/
theorem GcpAuth.get_token_low_validity_blocks :
    GcpAuth.Token.valid_for ⟨⟨"cached"⟩, 10⟩ 0 = 10 ∧
    (GcpAuth.get_token
        { cached := some ⟨⟨"cached"⟩, 10⟩, lockHeld := false,
          cachedAfterLock := some ⟨⟨"cached"⟩, 10⟩,
          refreshResult := .ok ⟨⟨"fresh"⟩, 3600⟩ } 0).blocked = true ∧
    (GcpAuth.get_token
        { cached := some ⟨⟨"cached"⟩, 10⟩, lockHeld := false,
          cachedAfterLock := some ⟨⟨"cached"⟩, 10⟩,
          refreshResult := .ok ⟨⟨"fresh"⟩, 3600⟩ } 0).result
      = .ok (⟨⟨"fresh"⟩, 3600⟩ : GcpAuth.Token) ∧
    (⟨⟨"fresh"⟩, 3600⟩ : GcpAuth.Token) ≠ ⟨⟨"cached"⟩, 10⟩ :=
  ⟨by decide, rfl, rfl, by decide⟩

/-- C2 (amended): for a cached token whose remaining validity is strictly
between the 20-second expiry margin and 60 seconds, `get_token` returns that
cached token without blocking and with zero inline refreshes, and starts a
background refresh exactly when the non-waiting lock acquisition succeeds —
so at most one is started, and none when the lock is already held.  (The
claim's "between 0s and 60s" fails at or below 20s of remaining validity:
there the token counts as expired and the blocking path is taken.) -/
theorem GcpAuth.get_token_near_expiry_nonblocking (env : GcpAuth.GetTokenEnv)
    (now : Int) (t : GcpAuth.Token)
    (hc : env.cached = some t)
    (h20 : 20 < t.valid_for now) (h60 : t.valid_for now < 60) :
    (GcpAuth.get_token env now).result = .ok t ∧
    (GcpAuth.get_token env now).blocked = false ∧
    (GcpAuth.get_token env now).inline_refreshes = 0 ∧
    (GcpAuth.get_token env now).spawned = ! env.lockHeld := by
  have hexp := valid_for_gt_margin_not_expired t now h20
  have hpeek : peek_valid env.cached now = some t :=
    (peek_valid_eq_some _ _ _).mpr ⟨hc, hexp⟩
  unfold get_token
  rw [hpeek]
  dsimp only
  rw [if_pos h60]
  exact ⟨rfl, rfl, rfl, rfl⟩

/-- C2 witness: a concrete near-expiry call (remaining validity 30s, lock
already held) that returns the cached token, does not block, performs no
inline refresh, and spawns nothing. -/
theorem GcpAuth.get_token_near_expiry_nonblocking_witness :
    (GcpAuth.get_token
        { cached := some ⟨⟨"near"⟩, 30⟩, lockHeld := true,
          cachedAfterLock := none,
          refreshResult := .error .ParsingError } 0).result
      = .ok (⟨⟨"near"⟩, 30⟩ : GcpAuth.Token) ∧
    (GcpAuth.get_token
        { cached := some ⟨⟨"near"⟩, 30⟩, lockHeld := true,
          cachedAfterLock := none,
          refreshResult := .error .ParsingError } 0).blocked = false ∧
    (GcpAuth.get_token
        { cached := some ⟨⟨"near"⟩, 30⟩, lockHeld := true,
          cachedAfterLock := none,
          refreshResult := .error .ParsingError } 0).inline_refreshes = 0 ∧
    (GcpAuth.get_token
        { cached := some ⟨⟨"near"⟩, 30⟩, lockHeld := true,
          cachedAfterLock := none,
          refreshResult := .error .ParsingError } 0).spawned = ! true :=
  GcpAuth.get_token_near_expiry_nonblocking
    { cached := some ⟨⟨"near"⟩, 30⟩, lockHeld := true, cachedAfterLock := none,
      refreshResult := .error .ParsingError } 0 ⟨⟨"near"⟩, 30⟩
    rfl (by decide) (by decide)

/-- C3: on the blocking path — no cached token, or an expired one — the call
awaits the refresh mutex; if the re-peek after acquisition
(authentication_manager.rs:130-133) finds a now-valid token it is returned
with zero inline refreshes (no network call), and otherwise `refresh_token`
is called exactly once and its result, success or error alike, is returned
unchanged (lines 135-138). -/
theorem GcpAuth.get_token_blocking_path (env : GcpAuth.GetTokenEnv) (now : Int)
    (h : env.cached = none ∨ ∃ t : GcpAuth.Token,
      env.cached = some t ∧ t.has_expired now = true) :
    (GcpAuth.get_token env now).blocked = true ∧
    (∀ t : GcpAuth.Token, env.cachedAfterLock = some t →
      t.has_expired now = false →
      (GcpAuth.get_token env now).result = .ok t ∧
      (GcpAuth.get_token env now).inline_refreshes = 0) ∧
    (GcpAuth.peek_valid env.cachedAfterLock now = none →
      (GcpAuth.get_token env now).result = env.refreshResult ∧
      (GcpAuth.get_token env now).inline_refreshes = 1) := by
  have hpeek : peek_valid env.cached now = none := by
    rcases h with h | ⟨t, hsome, hexp⟩
    · simp [peek_valid, h]
    · simp [peek_valid, hsome, Option.filter, hexp]
  unfold get_token
  rw [hpeek]
  dsimp only
  refine ⟨?_, ?_, ?_⟩
  · cases peek_valid env.cachedAfterLock now <;> rfl
  · intro t hca hexp2
    have h2 : peek_valid env.cachedAfterLock now = some t :=
      (peek_valid_eq_some _ _ _).mpr ⟨hca, hexp2⟩
    rw [h2]
    exact ⟨rfl, rfl⟩
  · intro hnone
    rw [hnone]
    exact ⟨rfl, rfl⟩

/-- C3 witness: a concrete call with an empty cache that blocks, performs
exactly one inline refresh, and propagates the refresh error unchanged. -/
theorem GcpAuth.get_token_blocking_path_witness :
    (GcpAuth.get_token
        { cached := none, lockHeld := false, cachedAfterLock := none,
          refreshResult := .error .SignerFailed } 0).blocked = true ∧
    (GcpAuth.get_token
        { cached := none, lockHeld := false, cachedAfterLock := none,
          refreshResult := .error .SignerFailed } 0).result
      = .error .SignerFailed ∧
    (GcpAuth.get_token
        { cached := none, lockHeld := false, cachedAfterLock := none,
          refreshResult := .error .SignerFailed } 0).inline_refreshes = 1 := by
  have h := GcpAuth.get_token_blocking_path
    { cached := none, lockHeld := false, cachedAfterLock := none,
      refreshResult := .error .SignerFailed } 0 (Or.inl rfl)
  exact ⟨h.1, (h.2.2 rfl).1, (h.2.2 rfl).2⟩

/-- C5 counterexample: with every candidate failing — the env-based strategy
included — construction does not return a four-cause aggregate: the `?` on
`CustomServiceAccount::from_env()` (authentication_manager.rs:53) propagates
the first strategy's error alone, and that error carries no per-strategy
causes.  Even with the env strategy merely inapplicable, the `NoAuthMethod`
aggregate carries three causes, not four. -/
theorem GcpAuth.discovery_no_four_cause_aggregate :
    GcpAuth.AuthenticationManager.new (.error .SignerFailed)
        (.error .ParsingError) (.error .SignerInit)
        (.error (.ConnectionError "no gcloud")) = .error .SignerFailed ∧
    GcpAuth.Error.aggregate_causes .SignerFailed = [] ∧
    GcpAuth.AuthenticationManager.new (.ok none) (.error .ParsingError)
        (.error .SignerInit) (.error (.ConnectionError "no gcloud"))
      = .error (.NoAuthMethod (.ConnectionError "no gcloud") .SignerInit
          .ParsingError) ∧
    (GcpAuth.Error.aggregate_causes (.NoAuthMethod
        (.ConnectionError "no gcloud") .SignerInit .ParsingError)).length
      = 3 :=
  ⟨rfl, rfl, rfl, rfl⟩

/-- C5 (amended): discovery evaluates the candidates in the fixed order
(1) explicit-location file key, (2) local developer credentials, (3) metadata
service, (4) external CLI tool, stopping at the first success.  A failure of
strategy 1 (env var set but unusable) aborts construction immediately with
that error alone; when strategy 1 is inapplicable and the remaining three all
fail, construction fails with a single aggregate error carrying those three
causes (CLI, metadata service, developer credentials). -/
theorem GcpAuth.discovery_order_and_aggregate (e e₁ e₂ e₃ : GcpAuth.Error)
    (c m g : Except GcpAuth.Error Unit) :
    GcpAuth.AuthenticationManager.new (.ok (some ())) c m g
      = .ok .custom_service_account ∧
    GcpAuth.AuthenticationManager.new (.ok none) (.ok ()) m g
      = .ok .config_default_credentials ∧
    GcpAuth.AuthenticationManager.new (.ok none) (.error e₁) (.ok ()) g
      = .ok .metadata_service_account ∧
    GcpAuth.AuthenticationManager.new (.ok none) (.error e₁) (.error e₂)
        (.ok ()) = .ok .gcloud_authorized_user ∧
    GcpAuth.AuthenticationManager.new (.error e) c m g = .error e ∧
    GcpAuth.AuthenticationManager.new (.ok none) (.error e₁) (.error e₂)
        (.error e₃) = .error (.NoAuthMethod e₃ e₂ e₁) ∧
    GcpAuth.Error.aggregate_causes (.NoAuthMethod e₃ e₂ e₁) = [e₃, e₂, e₁] :=
  ⟨rfl, rfl, rfl, rfl, rfl, rfl, rfl⟩

/-- C6: the Debug rendering of a `SecretString` is the fixed placeholder
`"(redacted)"` for every input, so it carries no information about the
plaintext — in particular two different secrets render identically, and no
string longer than the 10-character placeholder (so in particular any long
secret, and any secret that is not an accidental fragment of the constant
word "redacted") can occur inside it; the Token Debug rendering likewise
does not depend on the secret at all. -/
theorem GcpAuth.secret_debug_redacted (s s' : GcpAuth.SecretString) (e : Int)
    (long : String) (hlong : 10 < long.length) :
    GcpAuth.SecretString.debug_fmt s = "(redacted)" ∧
    GcpAuth.SecretString.debug_fmt s = GcpAuth.SecretString.debug_fmt s' ∧
    ¬ long.data <:+: (GcpAuth.SecretString.debug_fmt s).data ∧
    GcpAuth.Token.debug_fmt ⟨s, e⟩ = GcpAuth.Token.debug_fmt ⟨s', e⟩ := by
  refine ⟨rfl, rfl, ?_, rfl⟩
  intro hinf
  have h1 := hinf.length_le
  have h2 : (GcpAuth.SecretString.debug_fmt s).data.length = 10 := rfl
  have h3 : long.length = long.data.length := rfl
  omega

/-- C6 witness: a concrete secret renders as the placeholder, and a concrete
11-character string cannot occur in the rendering. -/
theorem GcpAuth.secret_debug_redacted_witness :
    GcpAuth.SecretString.debug_fmt ⟨"topsecret"⟩ = "(redacted)" ∧
    ¬ ("aaaaaaaaaaa".data
        <:+: (GcpAuth.SecretString.debug_fmt ⟨"topsecret"⟩).data) := by
  have h := GcpAuth.secret_debug_redacted ⟨"topsecret"⟩ ⟨"other"⟩ 0
    "aaaaaaaaaaa" (by decide)
  exact ⟨h.1, h.2.2.1⟩

/-- C7: `Signer::new` fails in each of the three cases — malformed PEM, zero
private keys, first key unparsable as the expected key type — and when the
PEM contains several keys only the first determines (and populates) the
constructed signer, the rest being discarded by
`keys.truncate(1); keys.remove(0)` (types.rs:130-158).  The error is
`SignerInit` in all three cases, with the I/O-to-error conversion of the
first two modelled from the spec (see `Error.of_io_invalid_input`). -/
theorem GcpAuth.signer_new_spec (from_pkcs8 : GcpAuth.KeyDer → Bool)
    (k : GcpAuth.KeyDer) (rest : List GcpAuth.KeyDer) :
    GcpAuth.Signer.new from_pkcs8 .read_failure = .error .SignerInit ∧
    GcpAuth.Signer.new from_pkcs8 (.keys []) = .error .SignerInit ∧
    (from_pkcs8 k = false →
      GcpAuth.Signer.new from_pkcs8 (.keys (k :: rest))
        = .error .SignerInit) ∧
    GcpAuth.Signer.new from_pkcs8 (.keys (k :: rest))
      = GcpAuth.Signer.new from_pkcs8 (.keys [k]) := by
  refine ⟨rfl, rfl, ?_, rfl⟩
  intro hk
  simp [Signer.new, hk]

/-- C7 witness: a pkcs8 oracle that rejects every blob makes construction
fail with `SignerInit` on a one-key list and on a malformed blob. -/
theorem GcpAuth.signer_new_spec_witness :
    GcpAuth.Signer.new GcpAuth.reject_all_keys (.keys [[0]])
      = .error .SignerInit ∧
    GcpAuth.Signer.new GcpAuth.reject_all_keys .read_failure
      = .error .SignerInit :=
  ⟨(GcpAuth.signer_new_spec GcpAuth.reject_all_keys [0] []).2.2.1 rfl,
   (GcpAuth.signer_new_spec GcpAuth.reject_all_keys [0] []).1⟩

/-- C8: response decoding fails with `ServerUnavailable` carrying the status
text on any non-2xx status, with the payload-free `ParsingError` on any JSON
decode failure — identical for every undecodable body, so the raw body never
reaches the error — and with `ConnectionError` carrying the transport
message on a transport-level failure (util.rs:13-34). -/
theorem GcpAuth.hyper_deserialize_spec {B T : Type} (decode : B → Option T)
    (status : Nat) (body body' : B) (msg : String) :
    (GcpAuth.status_is_success status = false →
      GcpAuth.hyper_deserialize decode status (.ok body)
        = .error (.ServerUnavailable ("Server responded with error "
            ++ toString status))) ∧
    (GcpAuth.status_is_success status = true → decode body = none →
      GcpAuth.hyper_deserialize decode status (.ok body)
        = .error .ParsingError) ∧
    (decode body = none → decode body' = none →
      GcpAuth.hyper_deserialize decode status (.ok body)
        = GcpAuth.hyper_deserialize decode status (.ok body')) ∧
    GcpAuth.hyper_deserialize decode status (.error msg)
      = .error (.ConnectionError msg) := by
  refine ⟨?_, ?_, ?_, ?_⟩
  · intro hs
    simp [hyper_deserialize, hs]
  · intro hs hd
    simp [hyper_deserialize, hs, hd]
  · intro h1 h2
    by_cases hs : GcpAuth.status_is_success status <;>
      simp [hyper_deserialize, hs, h1, h2]
  · rfl

/-- C8 witness: a 500 status yields the status-carrying `ServerUnavailable`,
and an undecodable 200-status body yields the payload-free `ParsingError`. -/
theorem GcpAuth.hyper_deserialize_spec_witness :
    GcpAuth.hyper_deserialize GcpAuth.decode_none 500 (.ok ([] : List Nat))
      = .error (.ServerUnavailable ("Server responded with error "
          ++ toString 500)) ∧
    GcpAuth.hyper_deserialize GcpAuth.decode_none 200 (.ok ([] : List Nat))
      = .error .ParsingError :=
  ⟨(GcpAuth.hyper_deserialize_spec GcpAuth.decode_none 500 [] [] "x").1
      (by decide),
   (GcpAuth.hyper_deserialize_spec GcpAuth.decode_none 200 [] [] "x").2.1
      (by decide) rfl⟩

/-- C9: decoding the wire payload with access_token "abc123" and expires_in
100 yields a token whose secret is "abc123" and whose absolute expiry equals
`now + 100` for the clock value `now` sampled when deserialization runs (the
only clock input of `token_decode`, matching `SystemTime::now()` inside
`deserialize_time`, types.rs:176-182) — so the expiry is fixed at decode
time, not at use time, and being exact it is within 1 second of
`now + 100s`. -/
theorem GcpAuth.token_decode_roundtrip (now : Int) :
    (GcpAuth.token_decode now ⟨"abc123", ⟨100, true⟩⟩).map
        GcpAuth.Token.secret = some "abc123" ∧
    (GcpAuth.token_decode now ⟨"abc123", ⟨100, true⟩⟩).map
        GcpAuth.Token.expires_at = some (now + 100) := by
  constructor
  · simp [token_decode, deserialize_time, json_u64, Token.secret]
  · simp [token_decode, deserialize_time, json_u64]

/-- C10: decoding the token wire payload succeeds exactly when `expires_in`
is an integral JSON number in the `u64` range `[0, 2^64)`; a negative or
fractional value makes the `u64` extraction — and hence the whole decode —
fail, and through `HyperExt::deserialize` this surfaces at the public
interface as the opaque `ParsingError`. -/
theorem GcpAuth.expires_in_must_be_u64 (now : Int) (s : String)
    (j : GcpAuth.JsonNum) :
    ((GcpAuth.token_decode now ⟨s, j⟩).isSome = true ↔
      (j.is_int = true ∧ 0 ≤ j.mantissa ∧ j.mantissa < 2 ^ 64)) ∧
    (j.mantissa < 0 ∨ j.is_int = false →
      GcpAuth.hyper_deserialize (GcpAuth.token_decode now) 200 (.ok ⟨s, j⟩)
        = .error .ParsingError) := by
  constructor
  · simp only [token_decode, deserialize_time, json_u64, Option.isSome_map]
    split
    next hcond => simpa using hcond
    next hcond => simpa using hcond
  · intro hneg
    have hcond : ¬ (j.is_int = true ∧ 0 ≤ j.mantissa ∧ j.mantissa < 2 ^ 64) := by
      rcases hneg with h | h
      · rintro ⟨_, h0, _⟩
        omega
      · rintro ⟨h1, _, _⟩
        rw [h] at h1
        cases h1
    have hnone : GcpAuth.token_decode now ⟨s, j⟩ = none := by
      simp only [token_decode, deserialize_time, json_u64]
      rw [if_neg hcond]
      rfl
    simp [hyper_deserialize, status_is_success, hnone]

/-- C10 witness: a negative `expires_in` surfaces as `ParsingError` through
the response-decoding pipeline. -/
theorem GcpAuth.expires_in_must_be_u64_witness :
    GcpAuth.hyper_deserialize (GcpAuth.token_decode 0) 200
        (.ok (⟨"abc123", ⟨-5, true⟩⟩ : GcpAuth.TokenPayload))
      = .error .ParsingError :=
  (GcpAuth.expires_in_must_be_u64 0 "abc123" ⟨-5, true⟩).2 (Or.inl (by decide))
